import Mathlib

/-!
Verification of the Raymote device session manager (src/index.mjs).

The development shallowly embeds the parts of the program the spec talks
about: port enumeration and filtering (`listPorts`), the per-role serial
session lifecycle (`connectRole`, mirroring `connectToReceiver` and
`connectToTransmitter`), transmit-command serialization (`sendIRCommand`),
the SSE event broadcaster (`publish`, `closeHandler`, `receiverDataHandler`)
and the startup auto-reconnect (`bootstrap`).  Effects are made explicit:
the ambient module variables become record fields, callback outcomes become
Boolean/Option parameters, and writes are collected in traces.
-/

namespace Raymote

/-! ### Strings: embedding of JavaScript String.prototype.includes -/

/-- Does the second list occur at the very start of the first? -/
def startMatch : List Char → List Char → Bool
  | _, [] => true
  | [], _ :: _ => false
  | c :: cs, d :: ds => c == d && startMatch cs ds

/-- Does `needle` occur contiguously anywhere inside `hay`? -/
def containsSub (hay needle : List Char) : Bool :=
  match hay with
  | [] => startMatch [] needle
  | _ :: t => startMatch hay needle || containsSub t needle

/-- Embedding of JavaScript `s.includes(sub)`. -/
def strIncludes (s sub : String) : Bool :=
  containsSub s.data sub.data

/-! ### Port Registry (`listPorts`, src/index.mjs lines 55-68) -/

/-- A serial device as enumerated by the OS (`SerialPort.list()` row); the
manufacturer field may be absent (`null`/`undefined`). -/
structure RawPort where
  path : String
  manufacturer : Option String
deriving Repr, DecidableEq

/-- The descriptor returned to callers of `listPorts`. -/
structure PortDescriptor where
  path : String
  manufacturer : String
deriving Repr, DecidableEq

/-- JavaScript `m || dflt` on a possibly-absent string: `null`, `undefined`
and the empty string are falsy. -/
def jsOrElse : Option String → String → String
  | none, d => d
  | some s, d => if s = "" then d else s

/-- The filter predicate of `listPorts`:
`port.path.includes('ttyUSB') || port.path.includes('ttyACM')`. -/
def isUsbSerialPath (p : String) : Bool :=
  strIncludes p "ttyUSB" || strIncludes p "ttyACM"

/-- The map step of `listPorts`: keep the path, default the manufacturer. -/
def describePort (r : RawPort) : PortDescriptor :=
  { path := r.path, manufacturer := jsOrElse r.manufacturer "Unknown" }

/-- The function `listPorts` (src/index.mjs lines 55-68), as a function of the OS
enumeration result. -/
def listPorts (ports : List RawPort) : List PortDescriptor :=
  (ports.filter fun port => isUsbSerialPath port.path).map describePort

/-! ### Serial session lifecycle (`connectToReceiver` / `connectToTransmitter`) -/

/-- One underlying serial-port object, with its open/closed status. -/
structure PortHandle where
  path : String
  isOpen : Bool
deriving Repr, DecidableEq

/-- The state of one role (receiver or transmitter): `current` is the index,
into the log `handles` of every port object ever created for the role, of
the object the module-level variable (`receiverPort` / `transmitterPort`)
points to; `handles` records the open/closed status of each object. -/
structure RoleState where
  current : Option Nat
  handles : List PortHandle
deriving Repr, DecidableEq

/-- The initial state of a role: variable `null`, no port objects yet. -/
def initRole : RoleState := { current := none, handles := [] }

/-- Mark the handle at index `i` closed (the effect of `port.close()`). -/
def closeAt : List PortHandle → Nat → List PortHandle
  | [], _ => []
  | h :: t, 0 => { h with isOpen := false } :: t
  | h :: t, n + 1 => h :: closeAt t n

/-- Is the handle at index `j` of the log open? -/
def openAtL (hs : List PortHandle) (j : Nat) : Bool :=
  match hs[j]? with
  | some h => h.isOpen
  | none => false

/-- Is the handle at index `j` open in state `s`? -/
def isOpenAt (s : RoleState) (j : Nat) : Bool :=
  openAtL s.handles j

/-- JavaScript falsiness of the `portPath` argument (`if (!portPath)`):
absent or the empty string. -/
def pathAbsent : Option String → Bool
  | none => true
  | some s => s == ""

/-- The resolved value of a successful `connect` promise: the code resolves
with `success: true` and, on a disconnect request, also `disconnected: true`
(left `undefined`, modelled `false`, otherwise). -/
structure ConnectResult where
  success : Bool
  disconnected : Bool
deriving Repr, DecidableEq

/-- The first statement of both connect functions:
`if (receiverPort && receiverPort.isOpen) receiverPort.close();`. -/
def closeCurrent (s : RoleState) : RoleState :=
  match s.current with
  | some i =>
    match s.handles[i]? with
    | some h => if h.isOpen then { s with handles := closeAt s.handles i } else s
    | none => s
  | none => s

/-- The functions `connectToReceiver` / `connectToTransmitter` (src/index.mjs lines 71-121
and 124-155) as a state transformer.  `openOk` is the outcome of the OS
`port.open()` request: on success the `open` callback stores the new port in
the module variable and resolves; on failure the `error` callback rejects
and the variable is left unchanged. -/
def connectRole (s : RoleState) (portPath : Option String) (openOk : Bool) :
    RoleState × Except String ConnectResult :=
  let s1 := closeCurrent s
  if pathAbsent portPath then
    ({ s1 with current := none }, Except.ok { success := true, disconnected := true })
  else if openOk then
    ({ current := some s1.handles.length,
       handles := s1.handles ++ [{ path := portPath.getD "", isOpen := true }] },
     Except.ok { success := true, disconnected := false })
  else
    ({ s1 with handles := s1.handles ++ [{ path := portPath.getD "", isOpen := false }] },
     Except.error "open failed")

/-! ### Session invariants -/

/-- No leaked handle: every open port object is the one the role's variable
currently points to.  (In particular at most one object is open.) -/
def Inv (s : RoleState) : Prop :=
  ∀ j, isOpenAt s j = true → s.current = some j

/-- At most one underlying connection is open. -/
def AtMostOneOpen (s : RoleState) : Prop :=
  ∀ j k, isOpenAt s j = true → isOpenAt s k = true → j = k

/-- Every port object of the role is closed. -/
def AllClosed (s : RoleState) : Prop :=
  ∀ j, isOpenAt s j = false

theorem inv_atMostOneOpen {s : RoleState} (h : Inv s) : AtMostOneOpen s := by
  intro j k hj hk
  have hjc := h j hj
  have hkc := h k hk
  rw [hjc] at hkc
  exact Option.some.inj hkc

theorem allClosed_inv {s : RoleState} (h : AllClosed s) : Inv s := by
  intro j hj
  rw [h j] at hj
  cases hj

theorem closeAt_length (hs : List PortHandle) (i : Nat) :
    (closeAt hs i).length = hs.length := by
  induction hs generalizing i with
  | nil => rfl
  | cons h t ih =>
    cases i with
    | zero => rfl
    | succ n => simp [closeAt, ih]

theorem closeAt_getElem?_ne (hs : List PortHandle) (i j : Nat) (hne : j ≠ i) :
    (closeAt hs i)[j]? = hs[j]? := by
  induction hs generalizing i j with
  | nil => rfl
  | cons h t ih =>
    cases i with
    | zero =>
      cases j with
      | zero => exact absurd rfl hne
      | succ m => simp [closeAt]
    | succ n =>
      cases j with
      | zero => simp [closeAt]
      | succ m =>
        simp only [closeAt, List.getElem?_cons_succ]
        exact ih n m (fun hc => hne (congrArg Nat.succ hc))

theorem closeAt_getElem?_eq (hs : List PortHandle) (i : Nat) :
    (closeAt hs i)[i]? = (hs[i]?).map fun h => { h with isOpen := false } := by
  induction hs generalizing i with
  | nil => rfl
  | cons h t ih =>
    cases i with
    | zero => simp [closeAt]
    | succ n =>
      simp only [closeAt, List.getElem?_cons_succ]
      exact ih n

theorem openAtL_iff (hs : List PortHandle) (j : Nat) :
    openAtL hs j = true ↔ ∃ h, hs[j]? = some h ∧ h.isOpen = true := by
  cases hg : hs[j]? with
  | none => simp [openAtL, hg]
  | some g => simp [openAtL, hg]

theorem openAtL_closeAt_self (hs : List PortHandle) (i : Nat) :
    openAtL (closeAt hs i) i = false := by
  unfold openAtL
  rw [closeAt_getElem?_eq]
  cases hs[i]? with
  | none => rfl
  | some g => rfl

theorem openAtL_closeAt_ne (hs : List PortHandle) (i j : Nat) (hne : j ≠ i) :
    openAtL (closeAt hs i) j = openAtL hs j := by
  unfold openAtL
  rw [closeAt_getElem?_ne hs i j hne]

/-- Closing the current handle never opens anything. -/
theorem isOpenAt_closeCurrent_mono {s : RoleState} {j : Nat}
    (hj : isOpenAt (closeCurrent s) j = true) : isOpenAt s j = true := by
  cases hc : s.current with
  | none => simpa [closeCurrent, hc] using hj
  | some i =>
    cases hhi : s.handles[i]? with
    | none => simpa [closeCurrent, hc, hhi] using hj
    | some hi =>
      by_cases hopen : hi.isOpen = true
      · simp only [closeCurrent, hc, hhi, hopen, if_true, isOpenAt] at hj
        unfold isOpenAt
        by_cases hji : j = i
        · subst hji
          rw [openAtL_closeAt_self] at hj
          cases hj
        · rw [openAtL_closeAt_ne s.handles i j hji] at hj
          exact hj
      · simpa [closeCurrent, hc, hhi, hopen] using hj

/-- After the close-existing-connection step, every handle of the role is
closed (given the no-leak invariant beforehand). -/
theorem closeCurrent_allClosed {s : RoleState} (h : Inv s) :
    AllClosed (closeCurrent s) := by
  intro j
  by_contra hne
  have hj : isOpenAt (closeCurrent s) j = true := by
    cases hx : isOpenAt (closeCurrent s) j with
    | false => exact absurd hx hne
    | true => rfl
  have hjs : isOpenAt s j = true := isOpenAt_closeCurrent_mono hj
  have hc : s.current = some j := h j hjs
  obtain ⟨hdl, hg, hopen⟩ := (openAtL_iff s.handles j).mp hjs
  simp only [closeCurrent, hc, hg, hopen, if_true, isOpenAt] at hj
  rw [openAtL_closeAt_self] at hj
  cases hj

theorem openAtL_append_single (hs : List PortHandle) (h : PortHandle) (j : Nat) :
    openAtL (hs ++ [h]) j = true →
      (j < hs.length ∧ openAtL hs j = true) ∨ (j = hs.length ∧ h.isOpen = true) := by
  intro hj
  rcases Nat.lt_trichotomy j hs.length with hlt | heq | hgt
  · left
    refine ⟨hlt, ?_⟩
    unfold openAtL at hj ⊢
    rw [List.getElem?_append_left hlt] at hj
    exact hj
  · right
    refine ⟨heq, ?_⟩
    unfold openAtL at hj
    subst heq
    rw [List.getElem?_concat_length] at hj
    exact hj
  · exfalso
    unfold openAtL at hj
    have hnone : (hs ++ [h])[j]? = none := by
      apply List.getElem?_eq_none
      simp only [List.length_append, List.length_cons, List.length_nil]
      omega
    rw [hnone] at hj
    cases hj

/-- A `connect` call preserves the no-leak invariant, whatever the prior
state, the requested path and the outcome of the OS open request. -/
theorem connectRole_inv {s : RoleState} (p : Option String) (ok : Bool) (h : Inv s) :
    Inv (connectRole s p ok).1 := by
  have hac : AllClosed (closeCurrent s) := closeCurrent_allClosed h
  unfold connectRole
  by_cases hp : pathAbsent p = true
  · simp only [hp, if_true]
    intro j hj
    simp only [isOpenAt] at hj
    have hc := hac j
    simp only [isOpenAt] at hc
    rw [hc] at hj
    cases hj
  · have hp' : pathAbsent p = false := by
      cases hx : pathAbsent p with
      | false => rfl
      | true => exact absurd hx hp
    cases ok with
    | true =>
      simp only [hp', Bool.false_eq_true, if_false, if_true]
      intro j hj
      simp only [isOpenAt] at hj
      rcases openAtL_append_single _ _ _ hj with ⟨_, hopen⟩ | ⟨hlen, _⟩
      · have hc := hac j
        simp only [isOpenAt] at hc
        rw [hc] at hopen
        cases hopen
      · simp only [hlen]
    | false =>
      simp only [hp', Bool.false_eq_true, if_false]
      intro j hj
      simp only [isOpenAt] at hj
      rcases openAtL_append_single _ _ _ hj with ⟨_, hopen⟩ | ⟨_, hopen⟩
      · have hc := hac j
        simp only [isOpenAt] at hc
        rw [hc] at hopen
        cases hopen
      · cases hopen

/-- Claim C2: for either role, after `connect(role, A)` and again after a
subsequent `connect(role, B)` — whatever the paths and whatever the outcome
of each OS open request — the no-leak invariant holds, at most one
underlying serial connection for the role is open, and at the intermediate
instant inside each call (right after the close-existing step, before the
new open) every handle of the role is closed. -/
theorem connect_connect_single_open (s : RoleState) (pA pB : Option String)
    (okA okB : Bool) (h : Inv s) :
    AllClosed (closeCurrent s) ∧
    Inv (connectRole s pA okA).1 ∧
    AtMostOneOpen (connectRole s pA okA).1 ∧
    AllClosed (closeCurrent (connectRole s pA okA).1) ∧
    Inv (connectRole (connectRole s pA okA).1 pB okB).1 ∧
    AtMostOneOpen (connectRole (connectRole s pA okA).1 pB okB).1 := by
  have h1 : Inv (connectRole s pA okA).1 := connectRole_inv pA okA h
  have h2 : Inv (connectRole (connectRole s pA okA).1 pB okB).1 :=
    connectRole_inv pB okB h1
  exact ⟨closeCurrent_allClosed h, h1, inv_atMostOneOpen h1,
    closeCurrent_allClosed h1, h2, inv_atMostOneOpen h2⟩

/-- A role state with exactly one open connection at path `p`: the state
right after a first successful `connect`. -/
def openedRole (p : String) : RoleState :=
  { current := some 0, handles := [{ path := p, isOpen := true }] }

theorem openedRole_inv (p : String) : Inv (openedRole p) := by
  intro j hj
  match j with
  | 0 => rfl
  | n + 1 => simp [openedRole, isOpenAt, openAtL] at hj

/-- Concrete run of C2: starting from a state with one open receiver
connection, connecting to a second path keeps the invariant throughout. -/
theorem connect_connect_single_open_witness :
    Inv (openedRole "/dev/ttyUSB0") ∧
    AtMostOneOpen (connectRole
      (connectRole (openedRole "/dev/ttyUSB0") (some "/dev/ttyUSB1") true).1
      (some "/dev/ttyACM0") true).1 :=
  ⟨openedRole_inv "/dev/ttyUSB0",
    (connect_connect_single_open (openedRole "/dev/ttyUSB0") (some "/dev/ttyUSB1")
      (some "/dev/ttyACM0") true true
      (openedRole_inv "/dev/ttyUSB0")).2.2.2.2.2⟩

/-- Claim C6: a `connect` call whose path is absent or empty first closes
any open connection for the role (given the no-leak invariant), resolves
with success (`disconnected: true`, the code's rendering of
`connected: false`) rather than rejecting, and leaves the role disconnected:
the module variable is `null` and no handle of the role is open. -/
theorem connect_empty_path_disconnects (s : RoleState) (p : Option String)
    (ok : Bool) (hp : pathAbsent p = true) (h : Inv s) :
    (connectRole s p ok).2 = Except.ok { success := true, disconnected := true } ∧
    (connectRole s p ok).1.current = none ∧
    AllClosed (connectRole s p ok).1 := by
  have hac : AllClosed (closeCurrent s) := closeCurrent_allClosed h
  refine ⟨?_, ?_, ?_⟩
  · simp [connectRole, hp]
  · simp [connectRole, hp]
  · intro j
    have hc := hac j
    simp only [isOpenAt] at hc ⊢
    simp only [connectRole, hp, if_true]
    exact hc

/-- Concrete run of C6: disconnecting (empty path) from a state with an open
transmitter connection succeeds and closes everything. -/
theorem connect_empty_path_disconnects_witness :
    pathAbsent (some "") = true ∧
    (connectRole (openedRole "/dev/ttyACM1") (some "") true).2 =
      Except.ok { success := true, disconnected := true } :=
  ⟨by decide,
    (connect_empty_path_disconnects (openedRole "/dev/ttyACM1") (some "") true
      (by decide) (openedRole_inv "/dev/ttyACM1")).1⟩

/-! ### Transmitter send (`sendIRCommand`, src/index.mjs lines 158-176) -/

/-- The serialization built on line 165 of the source:
the template literal of protocol, bit count and code, newline-terminated. -/
def serializeCommand (protocol : String) (bits : Nat) (code : String) : String :=
  protocol ++ "," ++ toString bits ++ "," ++ code ++ "\n"

/-- What one `sendIRCommand` call did: the byte strings passed to the
connection's `write`, and the promise outcome. -/
structure SendTrace where
  written : List String
  result : Except String Unit
deriving Repr

/-- The guard of `sendIRCommand`:
`!transmitterPort || !transmitterPort.isOpen` negated — the module variable
holds a port and that port is open. -/
def transmitterOpen (s : RoleState) : Bool :=
  match s.current with
  | some i => isOpenAt s i
  | none => false

/-- The function `sendIRCommand` (src/index.mjs lines 158-176).  `writeErr` is the error,
if any, the transport reports to the `write` completion callback; the
promise resolves only from that callback. -/
def sendIRCommand (ts : RoleState) (protocol : String) (bits : Nat)
    (code : String) (writeErr : Option String) : SendTrace :=
  if transmitterOpen ts then
    let command := serializeCommand protocol bits code
    match writeErr with
    | some e => { written := [command], result := Except.error e }
    | none => { written := [command], result := Except.ok () }
  else
    { written := [], result := Except.error "Transmitter not connected" }

/-- Claim C4: with no open transmitter connection (variable `null`, or its
port not open) `sendIRCommand` rejects immediately with the
not-connected error and passes nothing to any `write`. -/
theorem send_not_connected (ts : RoleState) (protocol : String) (bits : Nat)
    (code : String) (writeErr : Option String)
    (h : transmitterOpen ts = false) :
    (sendIRCommand ts protocol bits code writeErr).written = [] ∧
    (sendIRCommand ts protocol bits code writeErr).result =
      Except.error "Transmitter not connected" := by
  unfold sendIRCommand
  rw [h]
  exact ⟨rfl, rfl⟩

/-- Concrete run of C4: sending from the initial (never-connected) state. -/
theorem send_not_connected_witness :
    transmitterOpen initRole = false ∧
    (sendIRCommand initRole "NEC" 32 "0x1" none).result =
      Except.error "Transmitter not connected" :=
  ⟨by decide, (send_not_connected initRole "NEC" 32 "0x1" none (by decide)).2⟩

/-- Claim C5: on an open transmitter connection, the one string passed to
`write` is exactly `protocol ++ "," ++ bits ++ "," ++ code ++ "\n"`; the
promise resolves only when the transport's completion callback reports no
error, and a reported error is surfaced verbatim.  In particular the NEC
example writes exactly the bytes `NEC,32,0x1` followed by a newline. -/
theorem send_wire_format (ts : RoleState) (protocol : String) (bits : Nat)
    (code : String) (h : transmitterOpen ts = true) :
    (∀ writeErr, (sendIRCommand ts protocol bits code writeErr).written =
      [serializeCommand protocol bits code]) ∧
    (sendIRCommand ts protocol bits code none).result = Except.ok () ∧
    (∀ e, (sendIRCommand ts protocol bits code (some e)).result =
      Except.error e) ∧
    serializeCommand "NEC" 32 "0x1" = "NEC,32,0x1\n" := by
  refine ⟨?_, ?_, ?_, rfl⟩
  · intro writeErr
    unfold sendIRCommand
    rw [h]
    cases writeErr with
    | none => rfl
    | some e => rfl
  · unfold sendIRCommand
    rw [h]
    rfl
  · intro e
    unfold sendIRCommand
    rw [h]
    rfl

/-- Concrete run of C5: the NEC example on a freshly connected transmitter
writes exactly the serialized bytes. -/
theorem send_wire_format_witness :
    transmitterOpen (openedRole "/dev/ttyACM0") = true ∧
    (sendIRCommand (openedRole "/dev/ttyACM0") "NEC" 32 "0x1" none).written =
      ["NEC,32,0x1\n"] := by
  refine ⟨by decide, ?_⟩
  rw [(send_wire_format (openedRole "/dev/ttyACM0") "NEC" 32 "0x1" (by decide)).1 none]
  rfl

/-! ### Receiver line filtering (src/index.mjs lines 102-117) -/

/-- The forwarding condition of the parser `data` handler:
`data.includes('Decoded') || data.includes('Ready to receive')`. -/
def hasMarker (data : String) : Bool :=
  strIncludes data "Decoded" || strIncludes data "Ready to receive"

/-- The lines a whole read sequence forwards to the broadcaster (each as the
`data` field of a DecodedEvent); all other lines are dropped. -/
def forwardedLines (lines : List String) : List String :=
  lines.filter hasMarker

/-! ### Event broadcaster and SSE wire format (src/index.mjs lines 102-117
and 316-336) -/

/-- One entry of `connectedClients`: a subscriber response channel.
`closed` says whether the underlying HTTP connection is already gone. -/
structure Client where
  id : Nat
  closed : Bool
deriving Repr, DecidableEq

/-- Embedding of `res.write(frame)` on a subscriber channel.  Writing to a destroyed
stream reports an error (Node signals it asynchronously rather than
throwing, so the caller's loop continues); an open channel receives the
frame. -/
def clientWrite (c : Client) (frame : String) : Except String String :=
  if c.closed then Except.error "write after end" else Except.ok frame

/-- The fan-out loop `connectedClients.forEach(client => client.write(...))`:
one write attempt per registered subscriber, each with its own outcome. -/
def publish (clients : List Client) (frame : String) :
    List (Nat × Except String String) :=
  clients.map fun client => (client.id, clientWrite client frame)

/-- The `req.on('close')` handler (src/index.mjs line 333):
`connectedClients = connectedClients.filter(client => client !== res)`. -/
def closeHandler (clients : List Client) (res : Client) : List Client :=
  clients.filter fun client => !(client == res)

/-- Lower-case hexadecimal digit, for JSON control-character escapes. -/
def hexDigitChar (n : Nat) : Char :=
  "0123456789abcdef".data.getD (n % 16) '0'

/-- JSON string escaping of one character, as JSON.stringify performs it:
quote, backslash and control characters are escaped, everything else is
kept verbatim. -/
def jsonEscapeChar (c : Char) : String :=
  if c = '"' then "\\\""
  else if c = '\\' then "\\\\"
  else if c = '\n' then "\\n"
  else if c = '\r' then "\\r"
  else if c = '\t' then "\\t"
  else if c = '\x08' then "\\b"
  else if c = '\x0c' then "\\f"
  else if c.toNat < 32 then
    "\\u00" ++ String.mk [hexDigitChar (c.toNat / 16), hexDigitChar c.toNat]
  else String.mk [c]

/-- JSON escaping of a whole character sequence. -/
def escapeChars : List Char → List Char
  | [] => []
  | c :: cs => (jsonEscapeChar c).data ++ escapeChars cs

/-- A JSON string literal: quotes around the escaped contents. -/
def jsonQuote (s : String) : String :=
  String.mk ('"' :: (escapeChars s.data ++ ['"']))

/-- The message object built per forwarded line (src/index.mjs lines
105-108): a wall-clock timestamp and the raw decoded line. -/
structure Message where
  timestamp : String
  data : String
deriving Repr, DecidableEq

/-- Embedding of `JSON.stringify(message)` for the two-field message object, in
construction order: timestamp first, then data. -/
def stringifyMessage (m : Message) : String :=
  "\x7b\"timestamp\":" ++ jsonQuote m.timestamp ++ ",\"data\":" ++
    jsonQuote m.data ++ "\x7d"

/-- The SSE frame written per event (src/index.mjs line 112):
the template literal of the data field, the JSON payload and the blank-line
terminator. -/
def eventFrame (m : Message) : String :=
  "data: " ++ stringifyMessage m ++ "\n\n"

/-- The liveness ping frame (src/index.mjs line 326). -/
def keepaliveFrame : String := ": keepalive\n\n"

/-- The interval of the per-subscriber keepalive timer, in milliseconds
(src/index.mjs line 327). -/
def keepaliveIntervalMs : Nat := 30000

/-- The parser `data` handler wired to the receiver connection
(src/index.mjs lines 102-117): a line with a marker is broadcast to every
connected client as an SSE frame; any other line produces no write at all. -/
def receiverDataHandler (clients : List Client) (timestamp data : String) :
    List (Nat × Except String String) :=
  if hasMarker data then
    publish clients (eventFrame { timestamp := timestamp, data := data })
  else []

theorem hexDigitChar_ne_newline (n : Nat) :
    hexDigitChar n ≠ '\n' ∧ hexDigitChar n ≠ '\r' := by
  unfold hexDigitChar
  have h16 : n % 16 < 16 := Nat.mod_lt _ (by decide)
  generalize hk : n % 16 = k at h16 ⊢
  interval_cases k <;> exact ⟨by decide, by decide⟩

theorem jsonEscapeChar_no_newline (c : Char) :
    ∀ d ∈ (jsonEscapeChar c).data, d ≠ '\n' ∧ d ≠ '\r' := by
  unfold jsonEscapeChar
  split_ifs with h1 h2 h3 h4 h5 h6 h7 h8
  · exact by decide
  · exact by decide
  · exact by decide
  · exact by decide
  · exact by decide
  · exact by decide
  · exact by decide
  · intro d hd
    have hd' : d ∈ ('\\' :: 'u' :: '0' :: '0' ::
        [hexDigitChar (c.toNat / 16), hexDigitChar c.toNat]) := hd
    simp only [List.mem_cons, List.mem_singleton, List.not_mem_nil, or_false] at hd'
    rcases hd' with rfl | rfl | rfl | rfl | rfl | rfl
    · exact ⟨by decide, by decide⟩
    · exact ⟨by decide, by decide⟩
    · exact ⟨by decide, by decide⟩
    · exact ⟨by decide, by decide⟩
    · exact hexDigitChar_ne_newline _
    · exact hexDigitChar_ne_newline _
  · intro d hd
    have hd' : d ∈ [c] := hd
    rcases List.mem_singleton.mp hd' with rfl
    exact ⟨h3, h4⟩

theorem escapeChars_no_newline (l : List Char) :
    ∀ d ∈ escapeChars l, d ≠ '\n' ∧ d ≠ '\r' := by
  induction l with
  | nil => intro d hd; cases hd
  | cons c cs ih =>
    intro d hd
    rcases List.mem_append.mp hd with hd | hd
    · exact jsonEscapeChar_no_newline c d hd
    · exact ih d hd

theorem jsonQuote_no_newline (s : String) :
    ∀ d ∈ (jsonQuote s).data, d ≠ '\n' ∧ d ≠ '\r' := by
  intro d hd
  have hd' : d ∈ '"' :: (escapeChars s.data ++ ['"']) := hd
  rcases List.mem_cons.mp hd' with h | h
  · subst h; exact ⟨by decide, by decide⟩
  · rcases List.mem_append.mp h with h | h
    · exact escapeChars_no_newline s.data d h
    · rcases List.mem_singleton.mp h with rfl
      exact ⟨by decide, by decide⟩

/-- The JSON payload of an event frame never contains a line break, so the
`"\n\n"` terminator of the frame is unambiguous on the wire. -/
theorem stringifyMessage_no_newline (m : Message) :
    ∀ d ∈ (stringifyMessage m).data, d ≠ '\n' ∧ d ≠ '\r' := by
  intro d hd
  simp only [stringifyMessage, String.data_append, List.mem_append] at hd
  rcases hd with (((h | h) | h) | h) | h
  · exact (by decide : ∀ x ∈ "\x7b\"timestamp\":".data, x ≠ '\n' ∧ x ≠ '\r') d h
  · exact jsonQuote_no_newline _ d h
  · exact (by decide : ∀ x ∈ ",\"data\":".data, x ≠ '\n' ∧ x ≠ '\r') d h
  · exact jsonQuote_no_newline _ d h
  · exact (by decide : ∀ x ∈ "\x7d".data, x ≠ '\n' ∧ x ≠ '\r') d h

/-- Claim C1: a line read from the receiver is forwarded to the broadcaster
exactly when it contains the decoded marker or the ready marker; a line
lacking both produces no write to any subscriber; over any read sequence the
forwarded count is at most the number of lines read, with equality exactly
when every line carries a marker. -/
theorem receiver_marker_filter (lines : List String) (clients : List Client)
    (ts d : String) :
    (∀ l, l ∈ forwardedLines lines ↔ l ∈ lines ∧ hasMarker l = true) ∧
    (hasMarker d = false → receiverDataHandler clients ts d = []) ∧
    (hasMarker d = true →
      receiverDataHandler clients ts d =
        publish clients (eventFrame { timestamp := ts, data := d })) ∧
    (forwardedLines lines).length ≤ lines.length ∧
    ((forwardedLines lines).length = lines.length ↔
      ∀ l ∈ lines, hasMarker l = true) := by
  refine ⟨?_, ?_, ?_, ?_, ?_⟩
  · intro l
    simp [forwardedLines, List.mem_filter]
  · intro h
    simp [receiverDataHandler, h]
  · intro h
    simp [receiverDataHandler, h]
  · exact List.length_filter_le _ _
  · unfold forwardedLines
    exact List.filter_length_eq_length

/-- Concrete run of C1, the scenario of spec section 8: the decoded line and
the ready line are forwarded in order, the noise line is dropped and writes
nothing. -/
theorem receiver_marker_filter_witness :
    hasMarker "noise" = false ∧
    receiverDataHandler [{ id := 1, closed := false }] "10:00:00 AM" "noise" = [] ∧
    forwardedLines ["Decoded NEC 32 0x1", "noise", "Ready to receive"] =
      ["Decoded NEC 32 0x1", "Ready to receive"] :=
  ⟨by decide,
    (receiver_marker_filter [] [{ id := 1, closed := false }] "10:00:00 AM"
      "noise").2.1 (by decide),
    by decide⟩

/-- Claim C3: during fan-out of one event, every still-open subscriber
receives the frame regardless of a failing (already-closed) subscriber in
the set; a write is attempted for every subscriber, the closed one's write
fails in isolation, and the close event of the failing subscriber removes
exactly that subscriber from the set. -/
theorem broadcast_failure_isolated (xs ys : List Client) (bad : Client)
    (frame : String) (hbad : bad.closed = true) :
    publish (xs ++ bad :: ys) frame =
      publish xs frame ++
        (bad.id, Except.error "write after end") :: publish ys frame ∧
    (∀ c ∈ xs ++ bad :: ys, c.closed = false →
      (c.id, Except.ok frame) ∈ publish (xs ++ bad :: ys) frame) ∧
    bad ∉ closeHandler (xs ++ bad :: ys) bad ∧
    (∀ c, c ∈ closeHandler (xs ++ bad :: ys) bad ↔
      c ∈ xs ++ bad :: ys ∧ c ≠ bad) := by
  refine ⟨?_, ?_, ?_, ?_⟩
  · simp [publish, clientWrite, hbad]
  · intro c hc hopen
    have hmem : (c.id, clientWrite c frame) ∈ publish (xs ++ bad :: ys) frame :=
      List.mem_map_of_mem _ hc
    have hw : clientWrite c frame = Except.ok frame := by
      unfold clientWrite
      rw [hopen]
      rfl
    rwa [hw] at hmem
  · intro hmem
    have := (List.mem_filter.mp hmem).2
    simp at this
  · intro c
    constructor
    · intro hmem
      have h1 := List.mem_filter.mp hmem
      refine ⟨h1.1, ?_⟩
      intro hcb
      subst hcb
      simp at h1
    · intro ⟨h1, h2⟩
      apply List.mem_filter.mpr
      refine ⟨h1, ?_⟩
      simp [h2]

/-- Concrete run of C3: with subscribers 1 (open), 2 (closed), 3 (open),
publishing still delivers to 1 and 3, and the close event removes 2. -/
theorem broadcast_failure_isolated_witness :
    (1, Except.ok "frame") ∈
      publish [{ id := 1, closed := false }, { id := 2, closed := true },
        { id := 3, closed := false }] "frame" ∧
    (3, Except.ok "frame") ∈
      publish [{ id := 1, closed := false }, { id := 2, closed := true },
        { id := 3, closed := false }] "frame" ∧
    { id := 2, closed := true } ∉
      closeHandler [{ id := 1, closed := false }, { id := 2, closed := true },
        { id := 3, closed := false }] { id := 2, closed := true } :=
  ⟨(broadcast_failure_isolated [{ id := 1, closed := false }]
      [{ id := 3, closed := false }] { id := 2, closed := true } "frame"
      rfl).2.1 { id := 1, closed := false } (by decide) rfl,
   (broadcast_failure_isolated [{ id := 1, closed := false }]
      [{ id := 3, closed := false }] { id := 2, closed := true } "frame"
      rfl).2.1 { id := 3, closed := false } (by decide) rfl,
   (broadcast_failure_isolated [{ id := 1, closed := false }]
      [{ id := 3, closed := false }] { id := 2, closed := true } "frame"
      rfl).2.2.1⟩

/-- Claim C7: every event pushed to a subscriber is written as the exact
text frame of the data field followed by the JSON object with fields
timestamp and data and the blank-line terminator — and the JSON payload can
contain no line break, so the terminator is exact; every liveness ping is
the exact comment frame, sent on the fixed 30000-millisecond (30-second)
per-subscriber timer. -/
theorem sse_wire_format (m : Message) :
    eventFrame m = "data: " ++ stringifyMessage m ++ "\n\n" ∧
    stringifyMessage m = "\x7b\"timestamp\":" ++ jsonQuote m.timestamp ++
      ",\"data\":" ++ jsonQuote m.data ++ "\x7d" ∧
    (∀ d ∈ (stringifyMessage m).data, d ≠ '\n' ∧ d ≠ '\r') ∧
    eventFrame { timestamp := "10:00:00 AM", data := "Ready to receive" } =
      "data: \x7b\"timestamp\":\"10:00:00 AM\",\"data\":\"Ready to receive\"\x7d\n\n" ∧
    keepaliveFrame = ": keepalive\n\n" ∧
    keepaliveIntervalMs = 30 * 1000 :=
  ⟨rfl, rfl, stringifyMessage_no_newline m, by decide, rfl, rfl⟩

/-- Concrete run of C7: the newline-freeness of a concrete payload, read off
from the theorem. -/
theorem sse_wire_format_witness :
    'D' ∈ (stringifyMessage { timestamp := "t", data := "Decoded" }).data ∧
    'D' ≠ '\n' :=
  ⟨by decide,
    ((sse_wire_format { timestamp := "t", data := "Decoded" }).2.2.1 'D'
      (by decide)).1⟩

/-! ### Startup auto-reconnect (src/index.mjs lines 346-369) -/

/-- The persisted configuration object (config.json). -/
structure Config where
  receiverPort : Option String
  transmitterPort : Option String
deriving Repr, DecidableEq

/-- JavaScript truthiness of a saved path (`if (config.receiverPort)`). -/
def jsTruthy (p : Option String) : Bool :=
  !(pathAbsent p)

/-- The whole process: both role sessions plus whether the HTTP server is
accepting requests. -/
structure ServerState where
  receiver : RoleState
  transmitter : RoleState
  serving : Bool
deriving Repr

/-- The `server.listen` callback (src/index.mjs lines 346-369).  The HTTP
server is already listening when the callback runs; each role with a saved
path is reconnected inside its own try/catch, so a rejected reconnect is
only logged and the rest of startup still runs.  `recvOk` / `transOk` are
the outcomes of the two OS open requests. -/
def bootstrap (cfg : Config) (recvOk transOk : Bool) : ServerState :=
  let s0 : ServerState :=
    { receiver := initRole, transmitter := initRole, serving := true }
  let s1 :=
    if jsTruthy cfg.receiverPort then
      { s0 with receiver := (connectRole s0.receiver cfg.receiverPort recvOk).1 }
    else s0
  if jsTruthy cfg.transmitterPort then
    { s1 with transmitter := (connectRole s1.transmitter cfg.transmitterPort transOk).1 }
  else s1

/-- The persisted configuration of the C8 scenario: a saved receiver path
whose device does not exist, no saved transmitter path. -/
def scenarioConfig : Config :=
  { receiverPort := some "/dev/ttyUSB0", transmitterPort := none }

/-- A second startup configuration, with a saved path for both roles, to
exercise the cross-role independence of the reconnect attempts. -/
def scenarioConfigBoth : Config :=
  { receiverPort := some "/dev/ttyUSB0", transmitterPort := some "/dev/ttyACM0" }

/-- The state a failed reconnect attempt at path `p` leaves a role in:
the open request was really issued (the port object for `p` is in the log)
but it failed, so nothing is open and the variable is still `null`. -/
def failedAttemptRole (p : String) : RoleState :=
  { current := none, handles := [{ path := p, isOpen := false }] }

/-- Claim C8: at startup a reconnect is attempted for exactly each role with
a saved path — the role's state afterwards is precisely the state of a
`connect` call at that path, for either outcome, so the attempt is really
made and its failure is swallowed rather than propagated; the attempt for
one role happens whatever the other role's path and outcome are, and the
server serves throughout.  In the scenario config with a nonexistent
receiver device, the receiver ends with the attempted handle closed and the
variable `null`, the transmitter stays in its initial disconnected state,
and the process keeps serving; with a saved transmitter path as well, the
receiver failure still leaves the transmitter attempt made and succeeding. -/
theorem bootstrap_role_independent (cfg : Config) (recvOk transOk : Bool) :
    (bootstrap cfg recvOk transOk).serving = true ∧
    (cfg.transmitterPort = none →
      (bootstrap cfg recvOk transOk).transmitter = initRole) ∧
    (cfg.receiverPort = none →
      (bootstrap cfg recvOk transOk).receiver = initRole) ∧
    (∀ p, cfg.receiverPort = some p → p ≠ "" →
      (bootstrap cfg recvOk transOk).receiver =
        (connectRole initRole (some p) recvOk).1) ∧
    (∀ p, cfg.transmitterPort = some p → p ≠ "" →
      (bootstrap cfg recvOk transOk).transmitter =
        (connectRole initRole (some p) transOk).1) ∧
    (bootstrap scenarioConfig false transOk).serving = true ∧
    (bootstrap scenarioConfig false transOk).receiver =
      failedAttemptRole "/dev/ttyUSB0" ∧
    AllClosed (bootstrap scenarioConfig false transOk).receiver ∧
    (bootstrap scenarioConfig false transOk).transmitter = initRole ∧
    (bootstrap scenarioConfigBoth false true).receiver =
      failedAttemptRole "/dev/ttyUSB0" ∧
    (bootstrap scenarioConfigBoth false true).transmitter =
      openedRole "/dev/ttyACM0" ∧
    (bootstrap scenarioConfigBoth false true).serving = true := by
  refine ⟨?_, ?_, ?_, ?_, ?_, rfl, rfl, ?_, rfl, rfl, rfl, rfl⟩
  · unfold bootstrap
    by_cases h1 : jsTruthy cfg.receiverPort <;>
      by_cases h2 : jsTruthy cfg.transmitterPort <;>
      simp [h1, h2]
  · intro h
    unfold bootstrap
    rw [h]
    split <;> rfl
  · intro h
    unfold bootstrap
    rw [h]
    split
    · rename_i hcontra
      exact absurd hcontra (by decide)
    · split <;> rfl
  · intro p hp hne
    have hb : jsTruthy (some p) = true := by
      unfold jsTruthy pathAbsent
      simp [hne]
    by_cases h2 : jsTruthy cfg.transmitterPort = true <;>
      simp [bootstrap, hp, hb, h2]
  · intro p hp hne
    have hb : jsTruthy (some p) = true := by
      unfold jsTruthy pathAbsent
      simp [hne]
    by_cases h1 : jsTruthy cfg.receiverPort = true <;>
      simp [bootstrap, hp, hb, h1]
  · intro j
    match j with
    | 0 => rfl
    | n + 1 => rfl

/-- Concrete run of C8: with both paths saved and a nonexistent receiver
device, the process serves and the transmitter attempt is still the full
`connect` call at the saved path — the receiver failure did not abort it. -/
theorem bootstrap_role_independent_witness :
    (bootstrap scenarioConfigBoth false true).serving = true ∧
    (bootstrap scenarioConfigBoth false true).receiver =
      (connectRole initRole (some "/dev/ttyUSB0") false).1 ∧
    (bootstrap scenarioConfigBoth false true).transmitter =
      (connectRole initRole (some "/dev/ttyACM0") true).1 :=
  ⟨(bootstrap_role_independent scenarioConfigBoth false true).1,
   (bootstrap_role_independent scenarioConfigBoth false true).2.2.2.1
     "/dev/ttyUSB0" rfl (by decide),
   (bootstrap_role_independent scenarioConfigBoth false true).2.2.2.2.1
     "/dev/ttyACM0" rfl (by decide)⟩

/-! ### Port Registry claims -/

/-- Claim C9: `listPorts` returns exactly the enumerated devices whose path
contains the USB-serial markers `ttyUSB` or `ttyACM` (thereby excluding
fixed `ttyS*` ports), in enumeration order, one descriptor per kept device;
an empty result is an ordinary value, not an error. -/
theorem listPorts_usb_filter (ports : List RawPort) :
    (∀ d, d ∈ listPorts ports ↔
      ∃ r, r ∈ ports ∧ isUsbSerialPath r.path = true ∧ d = describePort r) ∧
    List.Sublist (listPorts ports) (ports.map describePort) ∧
    (listPorts ports).length = ports.countP (fun r => isUsbSerialPath r.path) ∧
    listPorts [] = [] ∧
    (∀ d ∈ listPorts ports, isUsbSerialPath d.path = true) := by
  refine ⟨?_, ?_, ?_, rfl, ?_⟩
  · intro d
    simp only [listPorts, List.mem_map, List.mem_filter]
    constructor
    · intro ⟨r, ⟨hmem, hp⟩, heq⟩
      exact ⟨r, hmem, hp, heq.symm⟩
    · intro ⟨r, hmem, hp, heq⟩
      exact ⟨r, ⟨hmem, hp⟩, heq.symm⟩
  · exact List.Sublist.map describePort (List.filter_sublist ports)
  · simp [listPorts, List.countP_eq_length_filter]
  · intro d hd
    simp only [listPorts, List.mem_map, List.mem_filter] at hd
    obtain ⟨r, ⟨_, hp⟩, heq⟩ := hd
    rw [← heq]
    exact hp

/-- A concrete OS enumeration: one fixed onboard port, one USB serial
adapter, one USB ACM device without a manufacturer string. -/
def sampleEnum : List RawPort :=
  [{ path := "/dev/ttyS0", manufacturer := some "FixedCorp" },
   { path := "/dev/ttyUSB0", manufacturer := some "FTDI" },
   { path := "/dev/ttyACM0", manufacturer := none }]

/-- Concrete run of C9: the fixed port is dropped, the two USB devices are
kept in enumeration order. -/
theorem listPorts_usb_filter_witness :
    listPorts sampleEnum =
      [{ path := "/dev/ttyUSB0", manufacturer := "FTDI" },
       { path := "/dev/ttyACM0", manufacturer := "Unknown" }] ∧
    ({ path := "/dev/ttyUSB0", manufacturer := "FTDI" } : PortDescriptor) ∈
      listPorts sampleEnum :=
  ⟨by decide,
    ((listPorts_usb_filter sampleEnum).1 _).mpr
      ⟨{ path := "/dev/ttyUSB0", manufacturer := some "FTDI" },
        by decide, by decide, by decide⟩⟩

theorem describePort_manufacturer_nonempty (r : RawPort) :
    (describePort r).manufacturer ≠ "" := by
  show jsOrElse r.manufacturer "Unknown" ≠ ""
  cases r.manufacturer with
  | none => decide
  | some s =>
    show (if s = "" then "Unknown" else s) ≠ ""
    by_cases hs : s = ""
    · rw [if_pos hs]
      decide
    · rw [if_neg hs]
      exact hs

/-- Claim C10: a device enumerated without a manufacturer is described with
manufacturer `Unknown` and its path kept unchanged; every descriptor
`listPorts` returns has a non-empty manufacturer string. -/
theorem port_manufacturer_default (r : RawPort) (ports : List RawPort) :
    (r.manufacturer = none →
      describePort r = { path := r.path, manufacturer := "Unknown" }) ∧
    (describePort r).path = r.path ∧
    (describePort r).manufacturer ≠ "" ∧
    (∀ d ∈ listPorts ports, d.manufacturer ≠ "") := by
  refine ⟨?_, rfl, describePort_manufacturer_nonempty r, ?_⟩
  · intro h
    simp [describePort, jsOrElse, h]
  · intro d hd
    simp only [listPorts, List.mem_map, List.mem_filter] at hd
    obtain ⟨q, _, heq⟩ := hd
    rw [← heq]
    exact describePort_manufacturer_nonempty q

/-- Concrete run of C10: the manufacturer-less ACM device is described as
`Unknown`. -/
theorem port_manufacturer_default_witness :
    describePort { path := "/dev/ttyACM0", manufacturer := none } =
      { path := "/dev/ttyACM0", manufacturer := "Unknown" } :=
  (port_manufacturer_default { path := "/dev/ttyACM0", manufacturer := none }
    []).1 rfl

end Raymote
